import Mathlib

/-!
Verification development for the `codex` CLI client (`src/codex/main.py`).

The Python program is shallowly embedded below.  The embedding covers:

* `estimate_tokens` (main.py lines 15-17),
* the request construction and retry wrapper `send_api_request`
  (main.py lines 20-31, tenacity `stop_after_attempt(3)` / `wait_fixed(2)`),
* the two response-consumption loops of `main` (stream branch, lines 103-110,
  and buffered branch, lines 111-125) and the identical loop inside
  `interactive_chat` (lines 58-64),
* the one-shot control flow of `main` (lines 79-128) and the turn loop of
  `interactive_chat` (lines 45-68).

External collaborators are modelled from their documented behaviour:
Python `str.split` / `str.strip` / string concatenation and truthiness,
`json.loads` (a standalone JSON parser below, including the Python
extensions `NaN` / `Infinity` / `-Infinity` and last-key-wins duplicate
handling), `requests.Response.raise_for_status` (raises exactly for
statuses 400-599), and the retry loop of tenacity.  Machine floats do not
appear: the single float constant `1.33` of the source is modelled as the
exact rational 133/100, which agrees with the Python float computation on
every physically realisable word count (the float error is far below the
1/100 granularity of the product there).  The spinner thread and signal
handling are outside the embedding; no claim below depends on them.
-/

/-- Python `str` whitespace, as used by `str.split()` and `str.strip()`
(ASCII fragment: space, tab, newline, carriage return, form feed,
vertical tab). -/
def isPyWs (c : Char) : Bool :=
  c = ' ' || c = '\t' || c = '\n' || c = '\r' || c = Char.ofNat 12 || c = Char.ofNat 11

/-- Worker for `pySplit`: the first argument is the remaining input, the
second the reversed characters of the word being read. -/
def splitWsAux : List Char → List Char → List String
  | [], acc => if acc.isEmpty then [] else [String.mk acc.reverse]
  | c :: cs, acc =>
    if isPyWs c then
      if acc.isEmpty then splitWsAux cs []
      else String.mk acc.reverse :: splitWsAux cs []
    else splitWsAux cs (c :: acc)

/-- Python `text.split()` with no separator: split on runs of whitespace;
leading and trailing whitespace produce no words and the result has no
empty words. -/
def pySplit (s : String) : List String :=
  splitWsAux s.data []

/-- Python `text.strip()`: drop leading and trailing whitespace. -/
def pyStrip (s : String) : String :=
  String.mk (((s.data.dropWhile (fun c => isPyWs c)).reverse.dropWhile
    (fun c => isPyWs c)).reverse)

/-- The `MAX_TOKENS` constant (main.py line 11). -/
def MAX_TOKENS : Nat := 2048

/-- The `API_URL` constant (main.py line 12). -/
def API_URL : String := "https://gpt.code-x.my/api/generate"

/-- `estimate_tokens` (main.py lines 15-17):
`int(len(text.split()) * 1.33)`.  The float product is modelled exactly as
`wordcount * 133 / 100` with truncating natural division (`int()` truncates
toward zero; the value is nonnegative, so this is the floor). -/
def estimate_tokens (text : String) : Nat :=
  (pySplit text).length * 133 / 100

/-- A decoded JSON value, the result type of the `json.loads` model.
Numbers keep their surface lexeme (`nan`, `inf`, `-inf` for the Python
extensions); no machine floats are involved. -/
inductive JVal where
  | null : JVal
  | bool (b : Bool) : JVal
  | num (lexeme : String) : JVal
  | str (s : String) : JVal
  | arr (elems : List JVal) : JVal
  | obj (fields : List (String × JVal)) : JVal
deriving Repr

/-- The opening-brace character, kept out of string literals. -/
def lbraceChar : Char := Char.ofNat 123

/-- The closing-brace character, kept out of string literals. -/
def rbraceChar : Char := Char.ofNat 125

/-- JSON insignificant whitespace (RFC 8259: space, tab, newline, return). -/
def isJsonWs (c : Char) : Bool :=
  c = ' ' || c = '\t' || c = '\n' || c = '\r'

/-- Drop leading JSON whitespace. -/
def skipWs : List Char → List Char
  | [] => []
  | c :: cs => if isJsonWs c then skipWs cs else c :: cs

/-- Value of a hexadecimal digit. -/
def hexVal (c : Char) : Option Nat :=
  if '0' ≤ c ∧ c ≤ '9' then some (c.toNat - '0'.toNat)
  else if 'a' ≤ c ∧ c ≤ 'f' then some (c.toNat - 'a'.toNat + 10)
  else if 'A' ≤ c ∧ c ≤ 'F' then some (c.toNat - 'A'.toNat + 10)
  else none

/-- Single-character JSON string escapes. -/
def escSimple (c : Char) : Option Char :=
  if c = '"' then some '"'
  else if c = '\\' then some '\\'
  else if c = '/' then some '/'
  else if c = 'b' then some (Char.ofNat 8)
  else if c = 'f' then some (Char.ofNat 12)
  else if c = 'n' then some '\n'
  else if c = 'r' then some '\r'
  else if c = 't' then some '\t'
  else none

/-- Parse the body of a JSON string (after the opening quote), fuel-bounded. -/
def parseJStr : Nat → List Char → Option (String × List Char)
  | 0, _ => none
  | _ + 1, [] => none
  | fuel + 1, c :: cs =>
    if c = '"' then some ("", cs)
    else if c = '\\' then
      match cs with
      | [] => none
      | e :: cs2 =>
        if e = 'u' then
          match cs2 with
          | h1 :: h2 :: h3 :: h4 :: cs3 =>
            match hexVal h1, hexVal h2, hexVal h3, hexVal h4 with
            | some a, some b, some d, some g =>
              match parseJStr fuel cs3 with
              | some (s, r) =>
                some (String.singleton (Char.ofNat (((a * 16 + b) * 16 + d) * 16 + g)) ++ s, r)
              | none => none
            | _, _, _, _ => none
          | _ => none
        else
          match escSimple e with
          | some ec =>
            match parseJStr fuel cs2 with
            | some (s, r) => some (String.singleton ec ++ s, r)
            | none => none
          | none => none
    else if c.toNat < 32 then none
    else
      match parseJStr fuel cs with
      | some (s, r) => some (String.singleton c ++ s, r)
      | none => none

/-- Take a maximal run of decimal digits. -/
def takeDigits : List Char → List Char × List Char
  | [] => ([], [])
  | c :: cs =>
    if c.isDigit then
      let (d, r) := takeDigits cs
      (c :: d, r)
    else ([], c :: cs)

/-- Integer part of a JSON number: `0`, or a nonzero digit followed by
digits (leading zeros are rejected, as in the Python `json` module). -/
def parseIntPart : List Char → Option (List Char × List Char)
  | [] => none
  | c :: rest =>
    if c = '0' then some ([c], rest)
    else if c.isDigit then
      let (ds, r) := takeDigits rest
      some (c :: ds, r)
    else none

/-- Optional fraction part of a JSON number. -/
def parseFracPart : List Char → Option (List Char × List Char)
  | [] => some ([], [])
  | c :: rest =>
    if c = '.' then
      let (ds, r) := takeDigits rest
      if ds.isEmpty then none else some (c :: ds, r)
    else some ([], c :: rest)

/-- Optional exponent part of a JSON number. -/
def parseExpPart : List Char → Option (List Char × List Char)
  | [] => some ([], [])
  | c :: rest =>
    if c = 'e' || c = 'E' then
      let (sgn, r1) :=
        match rest with
        | s :: rr => if s = '+' || s = '-' then ([s], rr) else (([] : List Char), s :: rr)
        | [] => (([] : List Char), ([] : List Char))
      let (ds, r2) := takeDigits r1
      if ds.isEmpty then none else some (c :: (sgn ++ ds), r2)
    else some ([], c :: rest)

/-- Parse a JSON number, keeping its lexeme. -/
def parseNum (cs : List Char) : Option (JVal × List Char) :=
  let (sgn, cs1) :=
    match cs with
    | '-' :: r => (['-'], r)
    | _ => (([] : List Char), cs)
  match parseIntPart cs1 with
  | none => none
  | some (ip, r1) =>
    match parseFracPart r1 with
    | none => none
    | some (fp, r2) =>
      match parseExpPart r2 with
      | none => none
      | some (ep, r3) => some (JVal.num (String.mk (sgn ++ ip ++ fp ++ ep)), r3)

/-- Parse the JSON literals (including the Python extensions `NaN` /
`Infinity` / `-Infinity`) or a number. -/
def parseLitOrNum : List Char → Option (JVal × List Char)
  | 't' :: 'r' :: 'u' :: 'e' :: rest => some (JVal.bool true, rest)
  | 'f' :: 'a' :: 'l' :: 's' :: 'e' :: rest => some (JVal.bool false, rest)
  | 'n' :: 'u' :: 'l' :: 'l' :: rest => some (JVal.null, rest)
  | 'N' :: 'a' :: 'N' :: rest => some (JVal.num "nan", rest)
  | 'I' :: 'n' :: 'f' :: 'i' :: 'n' :: 'i' :: 't' :: 'y' :: rest => some (JVal.num "inf", rest)
  | '-' :: 'I' :: 'n' :: 'f' :: 'i' :: 'n' :: 'i' :: 't' :: 'y' :: rest =>
    some (JVal.num "-inf", rest)
  | cs => parseNum cs

mutual

/-- Parse one JSON value (leading whitespace allowed), fuel-bounded. -/
def parseValue : Nat → List Char → Option (JVal × List Char)
  | 0, _ => none
  | fuel + 1, cs =>
    match skipWs cs with
    | [] => none
    | c :: rest =>
      if c = lbraceChar then parseObjBody fuel rest
      else if c = '[' then parseArrBody fuel rest
      else if c = '"' then
        match parseJStr fuel rest with
        | some (s, r) => some (JVal.str s, r)
        | none => none
      else parseLitOrNum (c :: rest)

/-- Parse an object body (after the opening brace). -/
def parseObjBody : Nat → List Char → Option (JVal × List Char)
  | 0, _ => none
  | fuel + 1, cs =>
    match skipWs cs with
    | [] => none
    | c :: rest =>
      if c = rbraceChar then some (JVal.obj [], rest)
      else parseMembers fuel (c :: rest) []

/-- Parse the members of a non-empty object. -/
def parseMembers : Nat → List Char → List (String × JVal) → Option (JVal × List Char)
  | 0, _, _ => none
  | fuel + 1, cs, acc =>
    match skipWs cs with
    | [] => none
    | c :: rest =>
      if c = '"' then
        match parseJStr fuel rest with
        | none => none
        | some (k, r1) =>
          match skipWs r1 with
          | ':' :: r2 =>
            match parseValue fuel r2 with
            | none => none
            | some (v, r3) =>
              match skipWs r3 with
              | [] => none
              | d :: r4 =>
                if d = ',' then parseMembers fuel r4 (acc ++ [(k, v)])
                else if d = rbraceChar then some (JVal.obj (acc ++ [(k, v)]), r4)
                else none
          | _ => none
      else none

/-- Parse an array body (after the opening bracket). -/
def parseArrBody : Nat → List Char → Option (JVal × List Char)
  | 0, _ => none
  | fuel + 1, cs =>
    match skipWs cs with
    | [] => none
    | c :: rest =>
      if c = ']' then some (JVal.arr [], rest)
      else parseArrItems fuel (c :: rest) []

/-- Parse the items of a non-empty array. -/
def parseArrItems : Nat → List Char → List JVal → Option (JVal × List Char)
  | 0, _, _ => none
  | fuel + 1, cs, acc =>
    match parseValue fuel cs with
    | none => none
    | some (v, r1) =>
      match skipWs r1 with
      | [] => none
      | c :: r2 =>
        if c = ',' then parseArrItems fuel r2 (acc ++ [v])
        else if c = ']' then some (JVal.arr (acc ++ [v]), r2)
        else none

end

/-- Model of Python `json.loads` on one line of the response body: parse a
single JSON document, demanding that only whitespace remains; `none` is the
`json.JSONDecodeError` case. -/
def json_loads (s : String) : Option JVal :=
  let cs := s.data
  match parseValue (4 * cs.length + 8) cs with
  | some (v, rest) => if skipWs rest = [] then some v else none
  | none => none

example : json_loads "5" = some (JVal.num "5") := by rfl
example : json_loads "not-json" = none := by rfl
example : json_loads "\x7b\"response\":\"A\"\x7d" =
    some (JVal.obj [("response", JVal.str "A")]) := by rfl
example : json_loads "" = none := by rfl
example : json_loads "[1, 2]" = some (JVal.arr [JVal.num "1", JVal.num "2"]) := by rfl
example : json_loads "\"x\"" = some (JVal.str "x") := by rfl

mutual

/-- Python repr of a decoded JSON value (None / True / False, single-quoted
strings, bracketed containers); only reachable from `print` on a non-string
fragment, which no claim exercises on containers, so the lexeme of a
number stands in for its float repr. -/
def pyRepr : JVal → String
  | JVal.null => "None"
  | JVal.bool true => "True"
  | JVal.bool false => "False"
  | JVal.num lexeme => lexeme
  | JVal.str s => String.singleton (Char.ofNat 39) ++ s ++ String.singleton (Char.ofNat 39)
  | JVal.arr xs => "[" ++ pyReprItems xs ++ "]"
  | JVal.obj fs =>
    String.singleton lbraceChar ++ pyReprFields fs ++ String.singleton rbraceChar

/-- Comma-separated reprs of array items. -/
def pyReprItems : List JVal → String
  | [] => ""
  | [x] => pyRepr x
  | x :: y :: rest => pyRepr x ++ ", " ++ pyReprItems (y :: rest)

/-- Comma-separated reprs of object fields. -/
def pyReprFields : List (String × JVal) → String
  | [] => ""
  | [(k, v)] =>
    String.singleton (Char.ofNat 39) ++ k ++ String.singleton (Char.ofNat 39) ++ ": " ++ pyRepr v
  | (k, v) :: f :: rest =>
    String.singleton (Char.ofNat 39) ++ k ++ String.singleton (Char.ofNat 39) ++ ": " ++
      pyRepr v ++ ", " ++ pyReprFields (f :: rest)

end

/-- Python str() of a decoded JSON value, as applied by `print(...)` to the
extracted fragment. -/
def pyStrOf : JVal → String
  | JVal.str s => s
  | v => pyRepr v

/-- Python `chunk.get(key, default)` on the dict built from a decoded JSON
object; duplicate JSON keys resolve to the last occurrence, as in the dict
construction of the Python json module. -/
def dictGet (fields : List (String × JVal)) (key : String) (dflt : JVal) : JVal :=
  match fields.reverse.find? (fun kv => kv.1 = key) with
  | some kv => kv.2
  | none => dflt

/-- One outcome of `requests.post` at the transport level: either an HTTP
response (status plus the lines later produced by `iter_lines`) or a
network-level failure (connection error, timeout). -/
inductive HttpAttempt where
  | response (status : Nat) (lines : List String) : HttpAttempt
  | transportFailure (msg : String) : HttpAttempt

/-- A live response handle: status and the body lines that `iter_lines`
will yield. -/
structure Resp where
  status : Nat
  lines : List String
deriving Repr, DecidableEq

/-- Exceptions raised inside the inner `_call` (main.py lines 26-29). -/
inductive CallError where
  | httpError (status : Nat) : CallError
  | transportError (msg : String) : CallError
deriving Repr, DecidableEq

/-- Model of `resp.raise_for_status()`: the requests library raises
`HTTPError` exactly for client-error (4xx) and server-error (5xx)
statuses; 1xx, 2xx and 3xx statuses do not raise. -/
def raisesForStatus (status : Nat) : Bool :=
  400 ≤ status && status < 600

/-- One execution of `_call` (main.py lines 26-29) against the answer the
transport oracle gives to attempt number `i`: perform the POST, then
`raise_for_status`. -/
def runCallAttempt (oracle : Nat → HttpAttempt) (i : Nat) : Except CallError Resp :=
  match oracle i with
  | HttpAttempt.transportFailure msg => Except.error (CallError.transportError msg)
  | HttpAttempt.response st lines =>
    if raisesForStatus st then Except.error (CallError.httpError st)
    else Except.ok ⟨st, lines⟩

/-- Trace of the retry wrapper: how many `requests.post` calls were made,
the sleeps performed between consecutive attempts, and the final result.
On exhaustion the final failure is surfaced (tenacity wraps it in a
`RetryError` that carries this last attempt; the wrapping is applied at
the call sites below). -/
structure RetryTrace where
  attempts : Nat
  sleeps : List Nat
  result : Except CallError Resp
deriving Repr

/-- The bounded retry loop of tenacity with `wait_fixed(wait)`: `attempt`
is the 1-based attempt number, the last argument the number of attempts
still allowed (`stop_after_attempt`).  Any exception of the wrapped call
triggers a retry while attempts remain, with a fixed sleep in between. -/
def retryGo (oracle : Nat → HttpAttempt) (wait : Nat) : Nat → Nat → RetryTrace
  | _, 0 => ⟨0, [], Except.error (CallError.transportError "")⟩
  | attempt, 1 => ⟨1, [], runCallAttempt oracle attempt⟩
  | attempt, remaining + 2 =>
    match runCallAttempt oracle attempt with
    | Except.ok r => ⟨1, [], Except.ok r⟩
    | Except.error _ =>
      let rest := retryGo oracle wait (attempt + 1) (remaining + 1)
      ⟨rest.attempts + 1, wait :: rest.sleeps, rest.result⟩

/-- Retry behaviour of `send_api_request` (main.py lines 25-31):
`@retry(stop=stop_after_attempt(3), wait=wait_fixed(2))` around `_call`. -/
def send_api_request_trace (oracle : Nat → HttpAttempt) : RetryTrace :=
  retryGo oracle 2 1 3

/-- Python f-string `Bearer ...` over `os.getenv`: an absent variable is
`None` and interpolates as the text `None`. -/
def bearerHeader (envKey : Option String) : String :=
  "Bearer " ++ (match envKey with | some k => k | none => "None")

/-- The HTTP request built by `send_api_request` (main.py lines 20-27):
the headers and payload dicts and the keyword arguments of
`requests.post`.  `transport_stream` is the `stream=` keyword passed to
`requests.post`; when it is false the requests library downloads the whole
body eagerly before returning. -/
structure HttpRequest where
  url : String
  payload_prompt : String
  payload_model : String
  payload_stream : Bool
  auth_header : String
  transport_stream : Bool
deriving Repr, DecidableEq

/-- Request construction of `send_api_request` (main.py lines 20-27). -/
def send_api_request_request (prompt model : String) (stream : Bool)
    (envKey : Option String) : HttpRequest :=
  ⟨API_URL, prompt, model, stream, bearerHeader envKey, stream⟩

/-- Exceptions of the embedded fragments that escape the per-line `try`
(`json.JSONDecodeError` is the only caught one and never appears here). -/
inductive PyErr where
  | attributeError : PyErr
  | typeError : PyErr
  | retryError (last : CallError) : PyErr
deriving Repr, DecidableEq

/-- Which exception reached `print(...)` in the handler of main.py line
127; only the exception kind is modelled, not the Python message text. -/
def pyErrName : PyErr → String
  | PyErr.attributeError => "AttributeError"
  | PyErr.typeError => "TypeError"
  | PyErr.retryError _ => "RetryError"

/-- The streaming print loop (main.py lines 104-110, and the identical
loop of `interactive_chat`, lines 58-64): skip empty lines, skip lines on
which `json_loads` fails (`except json.JSONDecodeError: continue`), and
for each decoded object print the `response` field, defaulting to the
empty string.  A line that decodes to a non-object raises
`AttributeError` at `chunk.get`, which no handler in the loop catches:
the returned fragments are exactly the ones printed before that abort. -/
def streamFragments : List String → List String × Option PyErr
  | [] => ([], none)
  | line :: rest =>
    if line = "" then streamFragments rest
    else
      match json_loads line with
      | none => streamFragments rest
      | some (JVal.obj fs) =>
        (pyStrOf (dictGet fs "response" (JVal.str "")) :: (streamFragments rest).1,
          (streamFragments rest).2)
      | some _ => ([], some PyErr.attributeError)

/-- The buffered accumulation loop (main.py lines 116-122): the same
per-line decode, but `content += chunk.get(...)` instead of printing.
Appending a non-string fragment raises `TypeError`; a non-object line
raises `AttributeError`; either abort discards the accumulated content
(it is only printed after the loop). -/
def bufferedContent : List String → Except PyErr String
  | [] => Except.ok ""
  | line :: rest =>
    if line = "" then bufferedContent rest
    else
      match json_loads line with
      | none => bufferedContent rest
      | some (JVal.obj fs) =>
        match dictGet fs "response" (JVal.str "") with
        | JVal.str s => Except.map (fun c => s ++ c) (bufferedContent rest)
        | _ => Except.error PyErr.typeError
      | some _ => Except.error PyErr.attributeError

/-- Python truthiness of `os.getenv(...)`: `None` and the empty string are
falsy (main.py line 80 tests `if not api_key`). -/
def envKeyTruthy : Option String → Bool
  | none => false
  | some s => s ≠ ""

/-- Prompt assembly of one-shot `main` (main.py line 88):
`" ".join(args.prompt) or sys.stdin.read().strip()`.  The Python `or` is
lazy and tests string truthiness, so stdin is read (and stripped) exactly
when the joined arguments are the empty string; the boolean records
whether stdin was read. -/
def assemblePrompt (argsPrompt : List String) (stdin : String) : String × Bool :=
  let joined := String.intercalate " " argsPrompt
  if joined = "" then (pyStrip stdin, true) else (joined, false)

/-- Observable outcome of one run of one-shot `main`: number of
`requests.post` executions, text printed to stdout (spinner writes
excluded), lines printed to stderr, and the exit code. -/
structure MainTrace where
  networkCalls : Nat
  stdout : String
  stderr : List String
  exitCode : Nat
deriving Repr, DecidableEq

/-- Concatenation, in arrival order, of the printed fragments: the stdout
text produced by the streaming loop (each fragment is printed with
`end=""`). -/
def concatFrags : List String → String
  | [] => ""
  | f :: fs => f ++ concatFrags fs

/-- The dispatch-and-consume tail of one-shot `main` (main.py lines
97-128): dispatch with retry, then stream or buffered consumption, all
under the outer `except Exception` handler of line 126.  In the
buffered-abort case the model records the printed error and the exit
request; the never-joined spinner thread is a concurrency effect outside
the embedding. -/
def dispatchAndConsume (complete : Bool) (oracle : Nat → HttpAttempt) : MainTrace :=
  let t := send_api_request_trace oracle
  match t.result with
  | Except.error e => ⟨t.attempts, "", ["Error: " ++ pyErrName (PyErr.retryError e)], 1⟩
  | Except.ok resp =>
    if !complete then
      match streamFragments resp.lines with
      | (frags, none) => ⟨t.attempts, concatFrags frags, [], 0⟩
      | (frags, some err) =>
        ⟨t.attempts, concatFrags frags, ["Error: " ++ pyErrName err], 1⟩
    else
      match bufferedContent resp.lines with
      | Except.ok content => ⟨t.attempts, content ++ "\n", [], 0⟩
      | Except.error err => ⟨t.attempts, "", ["Error: " ++ pyErrName err], 1⟩

/-- One-shot control flow of `main` (main.py lines 79-128, with
`args.chat = False`): credential check, prompt assembly, budget check,
then dispatch and consumption. -/
def codex_main_oneshot (envKey : Option String) (argsPrompt : List String)
    (stdin : String) (complete : Bool) (oracle : Nat → HttpAttempt) : MainTrace :=
  if envKeyTruthy envKey = false then
    ⟨0, "", ["Error: OLLAMA_API_KEY environment variable not set."], 1⟩
  else
    let prompt_text := (assemblePrompt argsPrompt stdin).1
    if prompt_text = "" then
      ⟨0, "", ["Error: No prompt provided."], 1⟩
    else if MAX_TOKENS < estimate_tokens prompt_text then
      ⟨0, "", ["Error: Prompt exceeds " ++ toString MAX_TOKENS ++ " token limit."], 1⟩
    else
      dispatchAndConsume complete oracle

/-- One interactive turn: the user input line and the transport oracle
serving the dispatch of that turn. -/
structure Turn where
  userInput : String
  oracle : Nat → HttpAttempt

/-- Observable outcome of an interactive session: the texts printed in
order (budget-error lines and response fragments) and, when the session
ended by an exception escaping the `while True` loop, that exception. -/
structure ChatTrace where
  outputs : List String
  uncaught : Option PyErr
deriving Repr, DecidableEq

/-- The turn loop of `interactive_chat` (main.py lines 49-65) on a finite
list of user inputs: blank input re-prompts without dispatching;
an over-budget prompt prints an error line and continues; otherwise the
turn dispatches with retry and streams the response.  The loop body has
no exception handler (only `KeyboardInterrupt` is caught, outside the
loop), so a dispatch failure after retry exhaustion or a consumption
error propagates out of the loop and ends the session: later turns are
never processed. -/
def interactive_chat_run : List Turn → ChatTrace
  | [] => ⟨[], none⟩
  | t :: rest =>
    if pyStrip t.userInput = "" then interactive_chat_run rest
    else if MAX_TOKENS < estimate_tokens t.userInput then
      let tr := interactive_chat_run rest
      ⟨("Error: Prompt exceeds " ++ toString MAX_TOKENS ++ " token limit.") :: tr.outputs,
        tr.uncaught⟩
    else
      match (send_api_request_trace t.oracle).result with
      | Except.error e => ⟨[], some (PyErr.retryError e)⟩
      | Except.ok resp =>
        match streamFragments resp.lines with
        | (frags, some err) => ⟨frags, some err⟩
        | (frags, none) =>
          let tr := interactive_chat_run rest
          ⟨frags ++ tr.outputs, tr.uncaught⟩

/-- Unfolding lemma for the last allowed attempt: its outcome, success or
failure, is surfaced directly. -/
theorem retryGo_one (oracle : Nat → HttpAttempt) (w attempt : Nat) :
    retryGo oracle w attempt 1 = ⟨1, [], runCallAttempt oracle attempt⟩ := rfl

/-- Unfolding lemma: with at least two attempts still allowed, a failing
call consumes one attempt and one fixed sleep before the loop goes on. -/
theorem retryGo_succ_two (oracle : Nat → HttpAttempt) (w attempt n : Nat) :
    retryGo oracle w attempt (n + 2) =
      match runCallAttempt oracle attempt with
      | Except.ok r => ⟨1, [], Except.ok r⟩
      | Except.error _ =>
        ⟨(retryGo oracle w (attempt + 1) (n + 1)).attempts + 1,
          w :: (retryGo oracle w (attempt + 1) (n + 1)).sleeps,
          (retryGo oracle w (attempt + 1) (n + 1)).result⟩ := by
  cases h : runCallAttempt oracle attempt <;> simp [retryGo, h]

/-- A first attempt that succeeds ends the dispatch after one call and no
sleep. -/
theorem send_trace_first_ok (oracle : Nat → HttpAttempt) (r : Resp)
    (h : runCallAttempt oracle 1 = Except.ok r) :
    send_api_request_trace oracle = ⟨1, [], Except.ok r⟩ := by
  unfold send_api_request_trace
  rw [show (3 : Nat) = 1 + 2 from rfl, retryGo_succ_two, h]

/-- When the first two attempts fail, the dispatch performs exactly three
calls with two fixed sleeps and ends with the outcome of attempt 3. -/
theorem send_trace_two_failures (oracle : Nat → HttpAttempt) (e1 e2 : CallError)
    (h1 : runCallAttempt oracle 1 = Except.error e1)
    (h2 : runCallAttempt oracle 2 = Except.error e2) :
    send_api_request_trace oracle = ⟨3, [2, 2], runCallAttempt oracle 3⟩ := by
  unfold send_api_request_trace
  rw [show (3 : Nat) = 1 + 2 from rfl, retryGo_succ_two, h1]
  rw [show (1 + 1 : Nat) = 2 from rfl, retryGo_succ_two, h2]
  rw [show (1 + 1 + 1 : Nat) = 3 from rfl, retryGo_one]

/-- The response line carrying fragment A. -/
def lineA : String := "\x7b\"response\":\"A\"\x7d"

/-- The response line carrying fragment B. -/
def lineB : String := "\x7b\"response\":\"B\"\x7d"

/-- The response line carrying fragment C. -/
def lineC : String := "\x7b\"response\":\"C\"\x7d"

/-- Transport oracle answering HTTP 304 (non-2xx, but not an error for
raise_for_status) on every attempt. -/
def oracle304 : Nat → HttpAttempt := fun _ => HttpAttempt.response 304 []

/-- Transport oracle answering HTTP 500 on every attempt. -/
def oracle500 : Nat → HttpAttempt := fun _ => HttpAttempt.response 500 ["oops"]

/-- Transport oracle failing at the network level on attempts 1 and 2 and
succeeding on attempt 3. -/
def oracleFlaky : Nat → HttpAttempt := fun i =>
  if i ≤ 2 then HttpAttempt.transportFailure "conn reset"
  else HttpAttempt.response 200 []

/-- Transport oracle succeeding with an empty body. -/
def oracleEmptyBody : Nat → HttpAttempt := fun _ => HttpAttempt.response 200 []

/-- Transport oracle failing at the network level on every attempt. -/
def oracleBoom : Nat → HttpAttempt := fun _ => HttpAttempt.transportFailure "down"

/-- Transport oracle succeeding with the single-fragment body A. -/
def oracleOkA : Nat → HttpAttempt := fun _ => HttpAttempt.response 200 [lineA]

/-- C1 counterexample: a dispatch whose HTTP call always yields the
non-2xx status 304 is, against the claim, not treated as failing at all:
raise_for_status raises only for 4xx and 5xx, so the dispatcher performs
one single attempt and returns the response as a success instead of
performing three attempts and surfacing an error. -/
theorem C1_counterexample :
    (send_api_request_trace oracle304).attempts = 1 ∧
    (send_api_request_trace oracle304).result = Except.ok ⟨304, []⟩ ∧
    ¬ (send_api_request_trace oracle304).attempts = 3 := by
  refine ⟨rfl, rfl, ?_⟩
  intro h
  have h1 : (send_api_request_trace oracle304).attempts = 1 := rfl
  omega

/-- C1 (amended): for every dispatch whose underlying HTTP call always
fails with a retryable error — a transport failure or a 4xx/5xx status
(not an arbitrary non-2xx status: raise_for_status raises only for
400-599) — the dispatcher performs exactly 3 attempts with a fixed
2-unit sleep between consecutive attempts and surfaces the error of the
last attempt; and a dispatch whose call fails twice then succeeds
performs exactly 3 attempts, with the same sleeps, and succeeds. -/
theorem C1_retry_policy :
    (∀ oracle : Nat → HttpAttempt,
      (∀ i, ∃ e, runCallAttempt oracle i = Except.error e) →
      (send_api_request_trace oracle).attempts = 3 ∧
      (send_api_request_trace oracle).sleeps = [2, 2] ∧
      (send_api_request_trace oracle).result = runCallAttempt oracle 3) ∧
    (∀ (oracle : Nat → HttpAttempt) (r : Resp),
      (∃ e, runCallAttempt oracle 1 = Except.error e) →
      (∃ e, runCallAttempt oracle 2 = Except.error e) →
      runCallAttempt oracle 3 = Except.ok r →
      (send_api_request_trace oracle).attempts = 3 ∧
      (send_api_request_trace oracle).sleeps = [2, 2] ∧
      (send_api_request_trace oracle).result = Except.ok r) := by
  constructor
  · intro oracle hfail
    obtain ⟨e1, h1⟩ := hfail 1
    obtain ⟨e2, h2⟩ := hfail 2
    rw [send_trace_two_failures oracle e1 e2 h1 h2]
    exact ⟨rfl, rfl, rfl⟩
  · intro oracle r hx1 hx2 h3
    obtain ⟨e1, h1⟩ := hx1
    obtain ⟨e2, h2⟩ := hx2
    rw [send_trace_two_failures oracle e1 e2 h1 h2]
    exact ⟨rfl, rfl, h3⟩

/-- C1 witness: the amended claim evaluated on the always-500 oracle and
on the fail-twice-then-succeed oracle. -/
theorem C1_retry_policy_witness :
    (send_api_request_trace oracle500).attempts = 3 ∧
    (send_api_request_trace oracle500).sleeps = [2, 2] ∧
    (send_api_request_trace oracle500).result = Except.error (CallError.httpError 500) ∧
    (send_api_request_trace oracleFlaky).attempts = 3 ∧
    (send_api_request_trace oracleFlaky).result = Except.ok ⟨200, []⟩ := by
  have hAll := C1_retry_policy.1 oracle500 (fun i => ⟨CallError.httpError 500, rfl⟩)
  have hFlaky := C1_retry_policy.2 oracleFlaky ⟨200, []⟩
    ⟨CallError.transportError "conn reset", rfl⟩
    ⟨CallError.transportError "conn reset", rfl⟩ rfl
  exact ⟨hAll.1, hAll.2.1, hAll.2.2.trans rfl, hFlaky.1, hFlaky.2.2⟩

/-- Removing a line on which json_loads fails does not change the
streaming consumption: the line produces no fragment and later lines are
still consumed. -/
theorem streamFragments_skip (l : String) (hl : json_loads l = none) :
    ∀ pre post : List String,
      streamFragments (pre ++ l :: post) = streamFragments (pre ++ post)
  | [], post => by
    by_cases h0 : l = ""
    · simp [streamFragments, h0]
    · simp [streamFragments, h0, hl]
  | p :: pre, post => by
    have IH := streamFragments_skip l hl pre post
    by_cases h0 : p = ""
    · simpa [streamFragments, h0] using IH
    · cases hjp : json_loads p with
      | none => simpa [streamFragments, h0, hjp] using IH
      | some jv => cases jv <;> simp [streamFragments, h0, hjp, IH]

/-- Removing a line on which json_loads fails does not change the
buffered consumption either. -/
theorem bufferedContent_skip (l : String) (hl : json_loads l = none) :
    ∀ pre post : List String,
      bufferedContent (pre ++ l :: post) = bufferedContent (pre ++ post)
  | [], post => by
    by_cases h0 : l = ""
    · simp [bufferedContent, h0]
    · simp [bufferedContent, h0, hl]
  | p :: pre, post => by
    have IH := bufferedContent_skip l hl pre post
    by_cases h0 : p = ""
    · simpa [bufferedContent, h0] using IH
    · cases hjp : json_loads p with
      | none => simpa [bufferedContent, h0, hjp] using IH
      | some jv =>
        cases jv with
        | obj fs =>
          cases hd : dictGet fs "response" (JVal.str "") <;>
            simp [bufferedContent, h0, hjp, hd, IH]
        | null => simp [bufferedContent, h0, hjp]
        | bool b => simp [bufferedContent, h0, hjp]
        | num x => simp [bufferedContent, h0, hjp]
        | str s => simp [bufferedContent, h0, hjp]
        | arr xs => simp [bufferedContent, h0, hjp]

/-- C2: on the four-line body A, B, not-json, C the streaming loop prints
exactly the fragments A, B, C in order (stdout ABC) and the buffered loop
accumulates ABC; and in general a line on which json_loads fails produces
no fragment and never aborts consumption of the remaining lines, in
either mode. -/
theorem C2_malformed_line_tolerated :
    (streamFragments [lineA, lineB, "not-json", lineC] = (["A", "B", "C"], none) ∧
      concatFrags ["A", "B", "C"] = "ABC" ∧
      bufferedContent [lineA, lineB, "not-json", lineC] = Except.ok "ABC") ∧
    (∀ (l : String) (pre post : List String), json_loads l = none →
      streamFragments (pre ++ l :: post) = streamFragments (pre ++ post) ∧
      bufferedContent (pre ++ l :: post) = bufferedContent (pre ++ post)) := by
  refine ⟨⟨rfl, rfl, rfl⟩, ?_⟩
  intro l pre post hl
  exact ⟨streamFragments_skip l hl pre post, bufferedContent_skip l hl pre post⟩

/-- C2 witness: the general part applied to the malformed line of the
concrete body. -/
theorem C2_malformed_line_tolerated_witness :
    streamFragments ([lineA, lineB] ++ "not-json" :: [lineC]) =
      streamFragments ([lineA, lineB] ++ [lineC]) ∧
    bufferedContent ([lineA, lineB] ++ "not-json" :: [lineC]) =
      bufferedContent ([lineA, lineB] ++ [lineC]) :=
  C2_malformed_line_tolerated.2 "not-json" [lineA, lineB] [lineC] rfl

/-- C3: for every text string P the token estimate equals the floor of
wordcount(P) * 1.33, where wordcount splits P on whitespace; the
multiplier 1.33 is the exact rational of the source constant and the
truncation toward zero of the nonnegative product is its floor. -/
theorem C3_estimate_is_floor (P : String) :
    (estimate_tokens P : ℤ) = ⌊((pySplit P).length : ℚ) * (1.33 : ℚ)⌋ := by
  have h133 : (1.33 : ℚ) = 133 / 100 := by norm_num
  rw [h133]
  have h : (((pySplit P).length : ℚ) * (133 / 100)) =
      ((((pySplit P).length * 133 : ℕ) : ℤ) : ℚ) / ((100 : ℕ) : ℚ) := by
    push_cast
    ring
  rw [h, Rat.floor_intCast_div_natCast]
  unfold estimate_tokens
  rw [Int.natCast_div]

/-- C4: with the credential absent from the process environment, one-shot
main fails immediately with the missing-credential error, performs zero
network calls and exits 1 — for every argument list, stdin content, mode
flag and transport behaviour, so in particular the failure is never
retried. -/
theorem C4_missing_credential_no_network (argsPrompt : List String) (stdin : String)
    (complete : Bool) (oracle : Nat → HttpAttempt) :
    (codex_main_oneshot none argsPrompt stdin complete oracle).networkCalls = 0 ∧
    (codex_main_oneshot none argsPrompt stdin complete oracle).exitCode = 1 ∧
    (codex_main_oneshot none argsPrompt stdin complete oracle).stderr =
      ["Error: OLLAMA_API_KEY environment variable not set."] :=
  ⟨rfl, rfl, rfl⟩

/-- C5 counterexample: with the logical stream flag false (complete
mode), requests.post is called with stream=False — the transport request
is not asked for a streamed body regardless of the flag, against the
claim. -/
theorem C5_counterexample :
    (send_api_request_request "p" "m" false (some "k")).transport_stream = false ∧
    ¬ (send_api_request_request "p" "m" false (some "k")).transport_stream = true := by
  exact ⟨rfl, by decide⟩

/-- C5 (amended): the stream keyword passed to requests.post equals the
logical stream flag of the caller (as does the stream field of the JSON
payload), so in complete mode the transport buffers the body fully; the
URL is the fixed endpoint. -/
theorem C5_transport_flag_follows_caller (prompt model : String) (stream : Bool)
    (envKey : Option String) :
    (send_api_request_request prompt model stream envKey).transport_stream = stream ∧
    (send_api_request_request prompt model stream envKey).payload_stream = stream ∧
    (send_api_request_request prompt model stream envKey).url = API_URL :=
  ⟨rfl, rfl, rfl⟩

/-- C6 counterexample: on an empty body in buffered mode the program
prints the empty accumulated string — stdout is exactly the newline
appended by print — and not a placeholder such as No response. -/
theorem C6_counterexample :
    codex_main_oneshot (some "k") ["hi"] "" true oracleEmptyBody = ⟨1, "\n", [], 0⟩ ∧
    ¬ (codex_main_oneshot (some "k") ["hi"] "" true oracleEmptyBody).stdout =
        "No response\n" ∧
    bufferedContent [] = Except.ok "" := by
  refine ⟨rfl, ?_, rfl⟩
  intro h
  rw [show (codex_main_oneshot (some "k") ["hi"] "" true oracleEmptyBody).stdout = "\n"
    from rfl] at h
  exact absurd h (by decide)

/-- C6 (amended): when the body yields zero fragments, buffered mode
prints the empty accumulated string exactly once (stdout is a bare
newline) and exits 0 — no placeholder text and no error; incremental
mode on an empty body produces no fragments and no error. -/
theorem C6_empty_completion (lines : List String) (oracle : Nat → HttpAttempt)
    (hb : bufferedContent lines = Except.ok "")
    (ho : runCallAttempt oracle 1 = Except.ok ⟨200, lines⟩) :
    dispatchAndConsume true oracle = ⟨1, "\n", [], 0⟩ ∧
    streamFragments [] = ([], none) := by
  constructor
  · unfold dispatchAndConsume
    rw [send_trace_first_ok oracle ⟨200, lines⟩ ho]
    simp [hb]
  · rfl

/-- C6 witness: the amended claim evaluated on the empty body. -/
theorem C6_empty_completion_witness :
    dispatchAndConsume true oracleEmptyBody = ⟨1, "\n", [], 0⟩ ∧
    streamFragments [] = ([], none) :=
  C6_empty_completion [] oracleEmptyBody rfl rfl

/-- C7 counterexample: with piped input ctx and argument q the one-shot
prompt is q, not the concatenation of stdin, a blank line and the
argument. -/
theorem C7_counterexample :
    (assemblePrompt ["q"] "ctx").1 = "q" ∧
    ¬ (assemblePrompt ["q"] "ctx").1 = "ctx\n\nq" := by
  constructor
  · rfl
  · decide

/-- C7 (amended): whenever the joined positional arguments are non-empty,
the dispatched prompt is exactly the joined arguments, stdin is not read,
and the assembled prompt does not depend on the stdin content at all;
stripped stdin is used only when no argument text is given. -/
theorem C7_args_shadow_stdin (argsPrompt : List String) (stdin : String)
    (h : String.intercalate " " argsPrompt ≠ "") :
    (assemblePrompt argsPrompt stdin).1 = String.intercalate " " argsPrompt ∧
    (assemblePrompt argsPrompt stdin).2 = false ∧
    (∀ other : String, assemblePrompt argsPrompt other = assemblePrompt argsPrompt stdin) := by
  refine ⟨?_, ?_, ?_⟩ <;> simp [assemblePrompt, h]

/-- C7 witness: the amended claim evaluated at piped input ctx with
argument q. -/
theorem C7_args_shadow_stdin_witness :
    (assemblePrompt ["q"] "ctx").1 = "q" ∧ (assemblePrompt ["q"] "ctx").2 = false ∧
    assemblePrompt ["q"] "other" = assemblePrompt ["q"] "ctx" := by
  have h := C7_args_shadow_stdin ["q"] "ctx" (by decide)
  exact ⟨h.1.trans rfl, h.2.1, h.2.2 "other"⟩

/-- C8 (code divergence): in the interactive session whose first turn
exhausts its retries and whose second turn would succeed, the uncaught
RetryError ends the whole session with no output — although the same
second turn alone prints its fragment.  The loop body of
interactive_chat catches no per-turn exception, so a failed turn
terminates the session instead of continuing with the next turn as the
specification mandates. -/
theorem C8_failed_turn_kills_session :
    interactive_chat_run [⟨"hi", oracleBoom⟩, ⟨"again", oracleOkA⟩] =
      ⟨[], some (PyErr.retryError (CallError.transportError "down"))⟩ ∧
    interactive_chat_run [⟨"again", oracleOkA⟩] = ⟨["A"], none⟩ :=
  ⟨rfl, rfl⟩

/-- C9: a line that decodes as valid JSON but not as a JSON object makes
chunk.get raise AttributeError, which the per-line handler (catching only
json.JSONDecodeError) lets escape: consumption aborts and no fragment of
any later line is produced — in the streaming loop (shared by one-shot
stream mode and interactive chat) and in the buffered loop alike. -/
theorem C9_nonobject_line_aborts (l : String) (j : JVal) (post : List String)
    (hj : json_loads l = some j) (hobj : ∀ fs, j ≠ JVal.obj fs) :
    streamFragments (l :: post) = ([], some PyErr.attributeError) ∧
    bufferedContent (l :: post) = Except.error PyErr.attributeError := by
  have hne : l ≠ "" := by
    intro h0
    rw [h0] at hj
    rw [show json_loads "" = none from rfl] at hj
    exact Option.noConfusion hj
  cases j with
  | obj fs => exact absurd rfl (hobj fs)
  | null =>
    exact ⟨by simp [streamFragments, hne, hj], by simp [bufferedContent, hne, hj]⟩
  | bool b =>
    exact ⟨by simp [streamFragments, hne, hj], by simp [bufferedContent, hne, hj]⟩
  | num x =>
    exact ⟨by simp [streamFragments, hne, hj], by simp [bufferedContent, hne, hj]⟩
  | str s =>
    exact ⟨by simp [streamFragments, hne, hj], by simp [bufferedContent, hne, hj]⟩
  | arr xs =>
    exact ⟨by simp [streamFragments, hne, hj], by simp [bufferedContent, hne, hj]⟩

/-- C9 witness: the number line 5 aborts both modes even though a decodable
object line follows. -/
theorem C9_nonobject_line_aborts_witness :
    streamFragments ["5", lineA] = ([], some PyErr.attributeError) ∧
    bufferedContent ["5", lineA] = Except.error PyErr.attributeError :=
  C9_nonobject_line_aborts "5" (JVal.num "5") [lineA] rfl
    (fun _ h => JVal.noConfusion h)

/-- C10: on every body on which neither mode raises, the buffered
accumulation equals the concatenation, in arrival order, of the fragments
the streaming mode prints — the two strategies share the per-line decode
(skip empty lines, skip undecodable lines, take the response field with
empty-string default). -/
theorem C10_stream_buffered_agree (lines : List String) (frags : List String)
    (content : String) (hs : streamFragments lines = (frags, none))
    (hb : bufferedContent lines = Except.ok content) :
    concatFrags frags = content := by
  induction lines generalizing frags content with
  | nil =>
    rw [show streamFragments [] = ([], none) from rfl] at hs
    rw [show bufferedContent [] = Except.ok "" from rfl] at hb
    injection hs with hs1 hs2
    injection hb with hb1
    rw [← hs1, ← hb1]
    rfl
  | cons p rest IH =>
    by_cases h0 : p = ""
    · rw [show streamFragments (p :: rest) = streamFragments rest from by
        simp [streamFragments, h0]] at hs
      rw [show bufferedContent (p :: rest) = bufferedContent rest from by
        simp [bufferedContent, h0]] at hb
      exact IH _ _ hs hb
    · cases hjp : json_loads p with
      | none =>
        rw [show streamFragments (p :: rest) = streamFragments rest from by
          simp [streamFragments, h0, hjp]] at hs
        rw [show bufferedContent (p :: rest) = bufferedContent rest from by
          simp [bufferedContent, h0, hjp]] at hb
        exact IH _ _ hs hb
      | some jv =>
        cases jv with
        | null => simp [streamFragments, h0, hjp] at hs
        | bool b => simp [streamFragments, h0, hjp] at hs
        | num x => simp [streamFragments, h0, hjp] at hs
        | str s => simp [streamFragments, h0, hjp] at hs
        | arr xs => simp [streamFragments, h0, hjp] at hs
        | obj fs =>
          rw [show streamFragments (p :: rest) =
              (pyStrOf (dictGet fs "response" (JVal.str "")) :: (streamFragments rest).1,
                (streamFragments rest).2) from by simp [streamFragments, h0, hjp]] at hs
          cases hd : dictGet fs "response" (JVal.str "") with
          | null => simp [bufferedContent, h0, hjp, hd] at hb
          | bool b => simp [bufferedContent, h0, hjp, hd] at hb
          | num x => simp [bufferedContent, h0, hjp, hd] at hb
          | arr xs => simp [bufferedContent, h0, hjp, hd] at hb
          | obj fs2 => simp [bufferedContent, h0, hjp, hd] at hb
          | str s =>
            rw [show bufferedContent (p :: rest) =
                Except.map (fun c => s ++ c) (bufferedContent rest) from by
              simp [bufferedContent, h0, hjp, hd]] at hb
            rw [hd] at hs
            cases hr : bufferedContent rest with
            | error e =>
              rw [hr] at hb
              simp [Except.map] at hb
            | ok c =>
              rw [hr] at hb
              simp only [Except.map] at hb
              injection hb with hbc
              injection hs with hs1 hs2
              have hrest : streamFragments rest = ((streamFragments rest).1, none) := by
                rw [← hs2]
              have hcc := IH _ _ hrest hr
              rw [← hs1, ← hbc]
              simp [concatFrags, pyStrOf, hcc]

/-- C10 witness: both modes evaluated on the concrete A, B, not-json, C
body agree on the accumulated text ABC. -/
theorem C10_stream_buffered_agree_witness :
    concatFrags ["A", "B", "C"] = "ABC" :=
  C10_stream_buffered_agree [lineA, lineB, "not-json", lineC] ["A", "B", "C"] "ABC" rfl rfl
